import Mathlib

/-!
Shallow embedding of the `awali_db_mapping` repository
(`src/sql_schema_exporter/{lineage.py, core.py, cli.py}`).

Python values are modelled as follows: schema/name/type columns are `String`
(an absent/NULL schema is modelled as the empty string, which is falsy in
Python exactly like `None`); the `graphviz.Digraph` object is modelled by its
name, comment and body, where the body is the list of node/edge statements in
the order `dot.node`/`dot.edge` appended them; the database session, the file
system and the external `dot` executable are modelled as environment
parameters giving the outcome of each external call, and the orchestrators
`generate_lineage` / `export_schema` are translated as pure functions from
those outcomes to an observable result record (returned status tuple, files
present on disk, whether the connection was closed, and whether an exception
escaped the function).
-/

namespace AwaliDbMapping

/-! ## Dependency rows (lineage.py, `fetch_dependencies` result shape)

One row of the dependency query:
`(referencing_schema_name, referencing_object_name, referencing_object_type,
  referenced_schema_name, referenced_object_name, referenced_object_type)`.
In `create_lineage_graph` the row is unpacked as
`ref_schema, ref_obj, ref_type, target_schema, target_obj, target_type`. -/

structure DepTuple where
  ref_schema : String
  ref_obj : String
  ref_type : String
  target_schema : String
  target_obj : String
  target_type : String
deriving DecidableEq, Repr

/-- Node styling attributes used by `dot.node(..., **style)`. -/
structure NodeStyle where
  shape : String
  fillcolor : String
deriving DecidableEq, Repr

/-- The `type_styles` dict of `create_lineage_graph` (lineage.py lines 83-91). -/
def type_styles (t : String) : Option NodeStyle :=
  if t = "USER_TABLE" then some ⟨"box", "lightblue"⟩
  else if t = "VIEW" then some ⟨"ellipse", "lightgoldenrodyellow"⟩
  else if t = "SQL_STORED_PROCEDURE" then some ⟨"cds", "lightcoral"⟩
  else if t = "SQL_TABLE_VALUED_FUNCTION" then some ⟨"invhouse", "lightgreen"⟩
  else if t = "SQL_SCALAR_FUNCTION" then some ⟨"invhouse", "lightgreen"⟩
  else if t = "SQL_INLINE_TABLE_VALUED_FUNCTION" then some ⟨"invhouse", "lightgreen"⟩
  else none

/-- `default_style` (lineage.py line 92). -/
def default_style : NodeStyle := ⟨"component", "lightgrey"⟩

/-- `type_styles.get(t, default_style)`. -/
def styleFor (t : String) : NodeStyle := (type_styles t).getD default_style

/-- `target_full_name = f"{target_schema or '?'}.{target_obj}"` (line 99).
A falsy (absent or empty) schema is replaced by the placeholder `"?"`. -/
def targetFullName (d : DepTuple) : String :=
  (if d.target_schema = "" then "?" else d.target_schema) ++ "." ++ d.target_obj

/-- `ref_full_name = f"{ref_schema}.{ref_obj}"` (line 100): no placeholder
substitution happens on the referencing side. -/
def refFullName (d : DepTuple) : String :=
  d.ref_schema ++ "." ++ d.ref_obj

/-- One statement of the graphviz body: a `dot.node` or `dot.edge` call. -/
inductive Stmt where
  | node (key label : String) (style : NodeStyle)
  | edge (tail head : String)
deriving DecidableEq, Repr

/-- The `dot.node(target_full_name, label=f"{target_schema}.\\n{target_obj}", **style)`
call of line 105 (the label uses the raw schema, not the placeholder). -/
def targetNodeStmt (d : DepTuple) : Stmt :=
  Stmt.node (targetFullName d) (d.target_schema ++ ".\\n" ++ d.target_obj)
    (styleFor d.target_type)

/-- The `dot.node(ref_full_name, label=f"{ref_schema}.\\n{ref_obj}", **style)`
call of line 109. -/
def refNodeStmt (d : DepTuple) : Stmt :=
  Stmt.node (refFullName d) (d.ref_schema ++ ".\\n" ++ d.ref_obj)
    (styleFor d.ref_type)

/-- The `for dep in dependencies` loop of `create_lineage_graph`
(lineage.py lines 94-113).  The first component of the accumulator is the
`nodes` set (modelled as the list of keys in insertion order; only membership
is ever queried), the produced list is the statements appended to `dot`:
for each row, the referenced node (if new), the referencing node (if new),
then the edge `target_full_name -> ref_full_name`. -/
def buildBody : List String → List DepTuple → List Stmt
  | _, [] => []
  | nodes, d :: rest =>
    let p1 : List String × List Stmt :=
      if targetFullName d ∈ nodes then (nodes, [])
      else (nodes ++ [targetFullName d], [targetNodeStmt d])
    let p2 : List String × List Stmt :=
      if refFullName d ∈ p1.1 then (p1.1, [])
      else (p1.1 ++ [refFullName d], [refNodeStmt d])
    p1.2 ++ p2.2 ++ [Stmt.edge (targetFullName d) (refFullName d)] ++ buildBody p2.1 rest

/-- `"".join(c if c.isalnum() or c in ('_') else '_' for c in db_name)` —
the per-character sanitizer used for the graph name (line 71) and for the
lineage output file name (line 141). -/
def lineageSanitize (db_name : String) : String :=
  String.mk (db_name.data.map (fun c => if c.isAlphanum || c == '_' then c else '_'))

/-- The subset of the `graphviz.Digraph` object that the code observes:
its name, comment and the body of statements in insertion order (the fixed
`graph_attr`/`node_attr`/`edge_attr` dicts of lines 75-77 are constants and
are rendered by `dotLines` below). -/
structure DotGraph where
  name : String
  comment : String
  body : List Stmt
deriving DecidableEq, Repr

/-- `create_lineage_graph(dependencies, db_name)` (lineage.py lines 68-115). -/
def create_lineage_graph (dependencies : List DepTuple) (db_name : String) : DotGraph :=
  { name := lineageSanitize db_name ++ "_lineage"
  , comment := "Data Lineage for " ++ db_name
  , body := buildBody [] dependencies }

/-- Whether a body statement is a node statement. -/
def isNodeStmt : Stmt → Bool
  | Stmt.node _ _ _ => true
  | Stmt.edge _ _ => false

/-- The node statements of the graph, in the order they occur in the body. -/
def nodeStmts (g : DotGraph) : List Stmt := g.body.filter isNodeStmt

/-- The edge statements of the graph, in the order they occur in the body. -/
def edgeStmts (g : DotGraph) : List Stmt := g.body.filter (fun s => !isNodeStmt s)

/-- The key of a statement: the node id, or the tail node of an edge. -/
def stmtKey : Stmt → String
  | Stmt.node k _ _ => k
  | Stmt.edge t _ => t

/-- The node ids of the graph in the order their statements occur in the body. -/
def nodeKeys (g : DotGraph) : List String := (nodeStmts g).map stmtKey

/-! ## Serialization (model of `graphviz.Digraph.save`)

`Digraph.source` is a pure function of the graph's name, comment, attribute
dicts (constant here) and body; the body statements are emitted one line
each, in insertion order.  `save` writes exactly that text. -/

/-- Double-quote a graphviz id. -/
def quoteId (s : String) : String := "\"" ++ s ++ "\""

/-- The line emitted for one body statement. -/
def stmtLine : Stmt → String
  | Stmt.node key label st =>
      "\t" ++ quoteId key ++ " [label=" ++ quoteId label ++ " fillcolor=" ++ st.fillcolor
        ++ " shape=" ++ st.shape ++ "]"
  | Stmt.edge tail head => "\t" ++ quoteId tail ++ " -> " ++ quoteId head

/-- The lines of the textual graph description written by `dot_graph.save`. -/
def dotLines (g : DotGraph) : List String :=
  ["// " ++ g.comment,
   "digraph " ++ quoteId g.name ++ " \x7b",
   "\tgraph [nodesep=0.5 overlap=false rankdir=LR ranksep=1.0 splines=true]",
   "\tnode [fontname=Helvetica shape=box style=filled]",
   "\tedge [arrowhead=open color=gray50]"]
  ++ g.body.map stmtLine ++ ["\x7d"]

/-- The full text of the description file. -/
def dotSource (g : DotGraph) : String :=
  String.intercalate "\n" (dotLines g) ++ "\n"

/-! ## Orchestrator: `generate_lineage` (lineage.py lines 118-188)

The external collaborators are modelled by the outcome of each call:

* `ConnOutcome` — `get_db_connection` either returns a session or raises
  `ConnectionError` (core.py line 39);
* `FetchOutcome` — `fetch_dependencies` either returns the row list or raises
  `RuntimeError("Failed to fetch dependencies: ...")` (lineage.py line 62);
* `SaveOutcome` — `dot_graph.save` either succeeds or raises `IOError`,
  which line 154 re-raises as `RuntimeError("Failed to save DOT file: ...")`;
* `RenderOutcome` — `dot_graph.render` either succeeds (producing the `.png`
  and, because `cleanup=True`, deleting the source `.gv`, which lines 162-163
  re-save), or raises `ExecutableNotFound` (the renderer saves the source
  file before attempting to execute `dot`, so the `.gv` is still on disk),
  or raises some other exception.

The outer `except (ConnectionError, RuntimeError, pyodbc.Error)` handler of
lines 172-182 catches every failure the modelled collaborators can raise,
logs it, and falls through to `return dependencies_fetched, dot_file_created,
render_error_message`; the `finally` block closes the connection when one was
opened.  `raised` records an exception escaping `generate_lineage` (there is
none on any modelled path). -/

inductive ConnOutcome where
  | ok
  | failure (msg : String)
deriving DecidableEq, Repr

inductive FetchOutcome where
  | ok (deps : List DepTuple)
  | failure (msg : String)
deriving DecidableEq, Repr

inductive SaveOutcome where
  | ok
  | ioError (msg : String)
deriving DecidableEq, Repr

inductive RenderOutcome where
  | ok
  | executableNotFound (msg : String)
  | otherFailure (msg : String)
deriving DecidableEq, Repr

/-- Observable outcome of one `generate_lineage` call: the returned status
triple (`dependencies_fetched`, `dot_file_created`, `render_error_message`),
whether an exception escaped the call (`raised`), and the state of the
modelled external world afterwards. -/
structure LineageResult where
  dependencies_fetched : Bool
  dot_file_created : Bool
  render_error_message : Option String
  raised : Option String
  conn_opened : Bool
  conn_closed : Bool
  outdir_created : Bool
  gv_file_exists : Bool
  png_file_exists : Bool
deriving DecidableEq, Repr

/-- The render-error message built at lineage.py line 166. -/
def execNotFoundErrorMsg (e : String) : String :=
  "Graphviz executable not found. Cannot render graph. Please install Graphviz. Error: " ++ e

/-- The render-error message built at lineage.py line 169. -/
def renderOtherErrorMsg (e : String) : String :=
  "An error occurred during graph rendering: " ++ e

/-- `generate_lineage(server, database, username, password, output_dir,
skip_render)` as a function of the outcomes of its external calls.
Straight-line translation of lineage.py lines 118-188; each branch's record
spells out the observable state on that exit path. -/
def generate_lineage (conn : ConnOutcome) (fetch : FetchOutcome)
    (save : SaveOutcome) (render : RenderOutcome) (skip_render : Bool) : LineageResult :=
  match conn with
  | ConnOutcome.failure _ =>
      -- get_db_connection raises ConnectionError: caught at line 172; `conn`
      -- is still None, so the finally block does not close anything.
      { dependencies_fetched := false, dot_file_created := false
      , render_error_message := none, raised := none
      , conn_opened := false, conn_closed := false, outdir_created := false
      , gv_file_exists := false, png_file_exists := false }
  | ConnOutcome.ok =>
    match fetch with
    | FetchOutcome.failure _ =>
        -- fetch_dependencies raises RuntimeError: caught at line 172;
        -- the finally block closes the opened connection.
        { dependencies_fetched := false, dot_file_created := false
        , render_error_message := none, raised := none
        , conn_opened := true, conn_closed := true, outdir_created := false
        , gv_file_exists := false, png_file_exists := false }
    | FetchOutcome.ok [] =>
        -- `if not dependencies:` (line 130): early return of the status triple.
        { dependencies_fetched := true, dot_file_created := false
        , render_error_message := none, raised := none
        , conn_opened := true, conn_closed := true, outdir_created := false
        , gv_file_exists := false, png_file_exists := false }
    | FetchOutcome.ok (_ :: _) =>
      -- graph built (line 135), output directory created (line 139).
      match save with
      | SaveOutcome.ioError _ =>
          -- `dot_graph.save` raises IOError, re-raised as RuntimeError
          -- (line 154), caught by the outer handler at line 172.
          { dependencies_fetched := true, dot_file_created := false
          , render_error_message := none, raised := none
          , conn_opened := true, conn_closed := true, outdir_created := true
          , gv_file_exists := false, png_file_exists := false }
      | SaveOutcome.ok =>
        if skip_render then
          { dependencies_fetched := true, dot_file_created := true
          , render_error_message := none, raised := none
          , conn_opened := true, conn_closed := true, outdir_created := true
          , gv_file_exists := true, png_file_exists := false }
        else
          match render with
          | RenderOutcome.ok =>
              -- render succeeds; cleanup=True removed the .gv and lines
              -- 162-163 re-save it.
              { dependencies_fetched := true, dot_file_created := true
              , render_error_message := none, raised := none
              , conn_opened := true, conn_closed := true, outdir_created := true
              , gv_file_exists := true, png_file_exists := true }
          | RenderOutcome.executableNotFound e =>
              { dependencies_fetched := true, dot_file_created := true
              , render_error_message := some (execNotFoundErrorMsg e), raised := none
              , conn_opened := true, conn_closed := true, outdir_created := true
              , gv_file_exists := true, png_file_exists := false }
          | RenderOutcome.otherFailure e =>
              { dependencies_fetched := true, dot_file_created := true
              , render_error_message := some (renderOtherErrorMsg e), raised := none
              , conn_opened := true, conn_closed := true, outdir_created := true
              , gv_file_exists := true, png_file_exists := false }

/-! ## Orchestrator: `export_schema` (core.py lines 154-180)

Each of the three category exports (`fetch_objects(conn, 'P', 'sprocs', ...)`,
`fetch_objects(conn, 'V', 'views', ...)`, `fetch_tables(conn, 'tables', ...)`)
either succeeds writing some number of files, or hits a `pyodbc.Error`
(caught *inside* the fetch function, core.py lines 83-85 and 106-108,
returning `[]` so zero files for that category and the next category still
runs), or raises an unexpected non-pyodbc exception that escapes the fetch
and is caught by `except Exception` in `export_schema` (line 174). -/

inductive CatFetchOutcome where
  | ok (files : Nat)
  | queryError (msg : String)
  | unexpected (msg : String)
deriving DecidableEq, Repr

/-- Files written for a category: a `pyodbc.Error` is caught inside the
fetch function and yields zero files; an unexpected error aborts before
the category's files are written. -/
def catFiles : CatFetchOutcome → Nat
  | CatFetchOutcome.ok n => n
  | CatFetchOutcome.queryError _ => 0
  | CatFetchOutcome.unexpected _ => 0

/-- Whether the category fetch raised an exception that escapes it. -/
def isUnexpected : CatFetchOutcome → Bool
  | CatFetchOutcome.unexpected _ => true
  | _ => false

/-- Observable outcome of one `export_schema` call. -/
structure ExportResult where
  success : Bool
  conn_closed : Bool
  sprocs_files : Nat
  views_files : Nat
  tables_files : Nat
deriving DecidableEq, Repr

/-- `export_schema(server, database, username, password, output_dir)` as a
function of the outcomes of its external calls (core.py lines 154-180):
`ConnectionError` is caught returning `False`; any unexpected exception from
a category export is caught by `except Exception` returning `False` and the
remaining categories do not run; otherwise all three categories run and the
function returns `True`; the `finally` block closes an opened connection. -/
def export_schema (conn : ConnOutcome)
    (sprocs views tables : CatFetchOutcome) : ExportResult :=
  match conn with
  | ConnOutcome.failure _ =>
      { success := false, conn_closed := false
      , sprocs_files := 0, views_files := 0, tables_files := 0 }
  | ConnOutcome.ok =>
    match sprocs with
    | CatFetchOutcome.unexpected _ =>
        { success := false, conn_closed := true
        , sprocs_files := 0, views_files := 0, tables_files := 0 }
    | s =>
      match views with
      | CatFetchOutcome.unexpected _ =>
          { success := false, conn_closed := true
          , sprocs_files := catFiles s, views_files := 0, tables_files := 0 }
      | v =>
        match tables with
        | CatFetchOutcome.unexpected _ =>
            { success := false, conn_closed := true
            , sprocs_files := catFiles s, views_files := catFiles v, tables_files := 0 }
        | t =>
            { success := true, conn_closed := true
            , sprocs_files := catFiles s, views_files := catFiles v
            , tables_files := catFiles t }

/-! ## Filename sanitization (cli.py lines 12-21, `sanitize_for_filename`) -/

/-- The default whitespace set of Python's `str.strip` and of `\s` in the
regex `[\\/*?:"<>|\s]+` for ASCII input. -/
def isPythonSpace (c : Char) : Bool :=
  c == ' ' || c == '\t' || c == '\n' || c == '\r' || c == '\x0b' || c == '\x0c'

/-- Membership in the character class `[\\/*?:"<>|\s]`. -/
def invalidFilenameChar (c : Char) : Bool :=
  c == '\\' || c == '/' || c == '*' || c == '?' || c == ':' || c == '\"' ||
  c == '<' || c == '>' || c == '|' || isPythonSpace c

/-- `name.strip()`: drop leading and trailing whitespace. -/
def pyStrip (s : String) : String :=
  String.mk (((s.data.dropWhile isPythonSpace).reverse.dropWhile isPythonSpace).reverse)

/-- `re.sub(r'[\\/*?:"<>|\s]+', '_', ·)` on the character list: each maximal
run of characters from the class collapses to one underscore.  The flag
records whether the previous character was in the class (i.e. whether we are
inside a run that already produced its underscore). -/
def collapseRuns : Bool → List Char → List Char
  | _, [] => []
  | prevInvalid, c :: rest =>
    if invalidFilenameChar c then
      (if prevInvalid then [] else ['_']) ++ collapseRuns true rest
    else
      c :: collapseRuns false rest

/-- `sanitize_for_filename(name)` (cli.py lines 12-21). -/
def sanitize_for_filename (name : String) : String :=
  let replaced := String.mk (collapseRuns false (pyStrip name).data)
  if replaced = "" then "_" else replaced

/-! ## Specification-side vocabulary for the graph-builder claims -/

/-- The candidate node statements contributed by the rows, two per row, in
the order the loop would issue them (referenced node first). -/
def allCands : List DepTuple → List Stmt
  | [] => []
  | d :: rest => targetNodeStmt d :: refNodeStmt d :: allCands rest

/-- The `(schema, name)` pairs occurring across both columns of the rows,
referenced column first within each row. -/
def allPairs : List DepTuple → List (String × String)
  | [] => []
  | d :: rest =>
      (d.target_schema, d.target_obj) :: (d.ref_schema, d.ref_obj) :: allPairs rest

/-- The node key a `(schema, name)` pair is mapped to. -/
def pairKey (p : String × String) : String := p.1 ++ "." ++ p.2

/-- A schema component that cannot clash with the `.` separator. -/
abbrev dotFree (s : String) : Prop := '.' ∉ s.data

/-- A well-formed dependency row: both schema components are present and
contain no `.`, so that distinct `(schema, name)` pairs get distinct keys. -/
abbrev wellFormedTuple (d : DepTuple) : Prop :=
  d.ref_schema ≠ "" ∧ d.target_schema ≠ "" ∧
  dotFree d.ref_schema ∧ dotFree d.target_schema

/-- A well-formed dependency row sequence. -/
abbrev wellFormed (deps : List DepTuple) : Prop := ∀ d ∈ deps, wellFormedTuple d

/-- Generic first-occurrence deduplication keyed by `f`, given the keys
already `seen`. -/
def dedupFirstAux {α β : Type} [DecidableEq β] (f : α → β) : List β → List α → List α
  | _, [] => []
  | seen, x :: xs =>
    if f x ∈ seen then dedupFirstAux f seen xs
    else x :: dedupFirstAux f (seen ++ [f x]) xs

/-- Boolean lexicographic order on character lists (by code point). -/
def lexLe : List Char → List Char → Bool
  | [], _ => true
  | _ :: _, [] => false
  | a :: as, b :: bs => if a = b then lexLe as bs else decide (a < b)

/-- Boolean lexicographic order on node keys. -/
def keyLe (a b : String) : Bool := lexLe a.data b.data

/-! ## Structural lemmas about the graph builder -/

theorem stmtKey_targetNodeStmt (d : DepTuple) :
    stmtKey (targetNodeStmt d) = targetFullName d := rfl

theorem stmtKey_refNodeStmt (d : DepTuple) :
    stmtKey (refNodeStmt d) = refFullName d := rfl

theorem isNodeStmt_targetNodeStmt (d : DepTuple) :
    isNodeStmt (targetNodeStmt d) = true := rfl

theorem isNodeStmt_refNodeStmt (d : DepTuple) :
    isNodeStmt (refNodeStmt d) = true := rfl

theorem isNodeStmt_edge (a b : String) : isNodeStmt (Stmt.edge a b) = false := rfl

/-- The node statements produced by the loop are the first occurrence, by
key, of the candidate statement stream, relative to the keys already seen. -/
theorem filter_node_buildBody (deps : List DepTuple) :
    ∀ ns : List String,
      (buildBody ns deps).filter isNodeStmt = dedupFirstAux stmtKey ns (allCands deps) := by
  induction deps with
  | nil => intro ns; simp [buildBody, allCands, dedupFirstAux]
  | cons d rest ih =>
    intro ns
    by_cases h1 : targetFullName d ∈ ns
    · by_cases h2 : refFullName d ∈ ns
      · simp [buildBody, allCands, dedupFirstAux, h1, h2, List.filter_append,
          isNodeStmt_edge, stmtKey_targetNodeStmt, stmtKey_refNodeStmt, ih]
      · simp [buildBody, allCands, dedupFirstAux, h1, h2, List.filter_append,
          isNodeStmt_edge, isNodeStmt_refNodeStmt,
          stmtKey_targetNodeStmt, stmtKey_refNodeStmt, ih]
    · by_cases h2 : refFullName d ∈ ns ++ [targetFullName d]
      · simp [buildBody, allCands, dedupFirstAux, h1, h2, List.filter_append,
          isNodeStmt_edge, isNodeStmt_targetNodeStmt,
          stmtKey_targetNodeStmt, stmtKey_refNodeStmt, ih]
      · simp [buildBody, allCands, dedupFirstAux, h1, h2, List.filter_append,
          isNodeStmt_edge, isNodeStmt_targetNodeStmt, isNodeStmt_refNodeStmt,
          stmtKey_targetNodeStmt, stmtKey_refNodeStmt, ih]

/-- The edge statements produced by the loop are exactly one edge per row,
in row order, from the referenced key to the referencing key. -/
theorem filter_edge_buildBody (deps : List DepTuple) :
    ∀ ns : List String,
      (buildBody ns deps).filter (fun s => !isNodeStmt s) =
        deps.map (fun d => Stmt.edge (targetFullName d) (refFullName d)) := by
  induction deps with
  | nil => intro ns; simp [buildBody]
  | cons d rest ih =>
    intro ns
    by_cases h1 : targetFullName d ∈ ns
    · by_cases h2 : refFullName d ∈ ns
      · simp [buildBody, h1, h2, List.filter_append, isNodeStmt_edge,
          isNodeStmt_targetNodeStmt, isNodeStmt_refNodeStmt, ih]
      · simp [buildBody, h1, h2, List.filter_append, isNodeStmt_edge,
          isNodeStmt_targetNodeStmt, isNodeStmt_refNodeStmt, ih]
    · by_cases h2 : refFullName d ∈ ns ++ [targetFullName d]
      · simp [buildBody, h1, h2, List.filter_append, isNodeStmt_edge,
          isNodeStmt_targetNodeStmt, isNodeStmt_refNodeStmt, ih]
      · simp [buildBody, h1, h2, List.filter_append, isNodeStmt_edge,
          isNodeStmt_targetNodeStmt, isNodeStmt_refNodeStmt, ih]

theorem nodeStmts_create_lineage_graph (deps : List DepTuple) (db : String) :
    nodeStmts (create_lineage_graph deps db) = dedupFirstAux stmtKey [] (allCands deps) := by
  simpa [nodeStmts, create_lineage_graph] using filter_node_buildBody deps []

theorem edgeStmts_create_lineage_graph (deps : List DepTuple) (db : String) :
    edgeStmts (create_lineage_graph deps db) =
      deps.map (fun d => Stmt.edge (targetFullName d) (refFullName d)) := by
  simpa [edgeStmts, create_lineage_graph] using filter_edge_buildBody deps []

/-! ## Counting lemmas for first-occurrence deduplication -/

theorem map_dedupFirstAux {α β : Type} [DecidableEq β] (f : α → β) (l : List α) :
    ∀ seen : List β,
      (dedupFirstAux f seen l).map f = dedupFirstAux id seen (l.map f) := by
  induction l with
  | nil => intro seen; simp [dedupFirstAux]
  | cons x xs ih =>
    intro seen
    by_cases h : f x ∈ seen
    · simp [dedupFirstAux, h, ih]
    · simp [dedupFirstAux, h, ih]

theorem mem_dedupFirstAux_id {α : Type} [DecidableEq α] (l : List α) :
    ∀ (seen : List α) (a : α),
      a ∈ dedupFirstAux id seen l ↔ (a ∈ l ∧ a ∉ seen) := by
  induction l with
  | nil => intro seen a; simp [dedupFirstAux]
  | cons x xs ih =>
    intro seen a
    by_cases h : x ∈ seen
    · by_cases hax : a = x
      · subst hax
        simp [dedupFirstAux, h, ih, List.mem_append]
      · simp [dedupFirstAux, h, ih, hax]
    · by_cases hax : a = x
      · subst hax; simp [dedupFirstAux, h]
      · simp [dedupFirstAux, h, ih, hax, List.mem_append]

theorem nodup_dedupFirstAux_id {α : Type} [DecidableEq α] (l : List α) :
    ∀ seen : List α, (dedupFirstAux id seen l).Nodup := by
  induction l with
  | nil => intro seen; simp [dedupFirstAux]
  | cons x xs ih =>
    intro seen
    by_cases h : x ∈ seen
    · simpa [dedupFirstAux, h] using ih seen
    · have hmem : x ∉ dedupFirstAux id (seen ++ [x]) xs := by
        intro hx
        have := (mem_dedupFirstAux_id xs (seen ++ [x]) x).mp hx
        simp [List.mem_append] at this
      simp [dedupFirstAux, h, List.nodup_cons, hmem, ih (seen ++ [x])]

/-- First-occurrence deduplication keeps exactly one element per distinct
value: its length is the number of distinct values of the list. -/
theorem length_dedupFirstAux_id {α : Type} [DecidableEq α] (l : List α) :
    (dedupFirstAux id [] l).length = l.toFinset.card := by
  have h1 : (dedupFirstAux id [] l).Nodup := nodup_dedupFirstAux_id l []
  have h2 : (dedupFirstAux id [] l).toFinset = l.toFinset := by
    ext a
    simp [List.mem_toFinset, mem_dedupFirstAux_id]
  calc (dedupFirstAux id [] l).length
      = (dedupFirstAux id [] l).toFinset.card := (List.toFinset_card_of_nodup h1).symm
    _ = l.toFinset.card := by rw [h2]

/-- Mapping by a function that is injective on the involved elements
commutes with first-occurrence deduplication. -/
theorem dedupFirstAux_map_inj {α β : Type} [DecidableEq α] [DecidableEq β]
    (f : α → β) (l : List α) :
    ∀ seen : List α,
      (∀ a ∈ seen ++ l, ∀ b ∈ seen ++ l, f a = f b → a = b) →
      dedupFirstAux id (seen.map f) (l.map f) = (dedupFirstAux id seen l).map f := by
  induction l with
  | nil => intro seen _; simp [dedupFirstAux]
  | cons x xs ih =>
    intro seen hinj
    have hmem : f x ∈ seen.map f ↔ x ∈ seen := by
      constructor
      · intro h
        obtain ⟨y, hy, hfy⟩ := List.mem_map.mp h
        have hyx : y = x :=
          hinj y (by simp [hy]) x (by simp) hfy
        rwa [← hyx]
      · intro h; exact List.mem_map_of_mem f h
    by_cases h : x ∈ seen
    · have hinj' : ∀ a ∈ seen ++ xs, ∀ b ∈ seen ++ xs, f a = f b → a = b := by
        intro a ha b hb
        refine hinj a ?_ b ?_
        · simp only [List.mem_append, List.mem_cons] at ha ⊢; tauto
        · simp only [List.mem_append, List.mem_cons] at hb ⊢; tauto
      simp [dedupFirstAux, h, hmem.mpr h, ih seen hinj']
    · have hinj' : ∀ a ∈ (seen ++ [x]) ++ xs, ∀ b ∈ (seen ++ [x]) ++ xs, f a = f b → a = b := by
        intro a ha b hb
        refine hinj a ?_ b ?_
        · simp only [List.mem_append, List.mem_cons, List.mem_singleton] at ha ⊢; tauto
        · simp only [List.mem_append, List.mem_cons, List.mem_singleton] at hb ⊢; tauto
      have hmap : (seen ++ [x]).map f = seen.map f ++ [f x] := by simp
      have hrec := ih (seen ++ [x]) hinj'
      rw [hmap] at hrec
      simp [dedupFirstAux, h, (not_congr hmem).mpr h, hrec]

/-! ## Injectivity of the key encoding on well-formed pairs -/

/-- Splitting two separator-joined character lists: when neither left part
contains the separator, equal concatenations have equal parts. -/
theorem append_sep_inj {a b x y : List Char}
    (ha : '.' ∉ a) (hb : '.' ∉ b)
    (h : a ++ '.' :: x = b ++ '.' :: y) : a = b ∧ x = y := by
  induction a generalizing b with
  | nil =>
    cases b with
    | nil => simpa using h
    | cons d b' =>
      exfalso
      simp only [List.nil_append, List.cons_append, List.cons.injEq] at h
      exact hb (by simp [← h.1])
  | cons c a' ih =>
    cases b with
    | nil =>
      exfalso
      simp only [List.nil_append, List.cons_append, List.cons.injEq] at h
      exact ha (by simp [h.1])
    | cons d b' =>
      simp only [List.cons_append, List.cons.injEq] at h
      obtain ⟨rfl, h2⟩ := h
      have ha' : '.' ∉ a' := fun hm => ha (List.mem_cons_of_mem _ hm)
      have hb' : '.' ∉ b' := fun hm => hb (List.mem_cons_of_mem _ hm)
      obtain ⟨h3, h4⟩ := ih ha' hb' h2
      exact ⟨by rw [h3], h4⟩

/-- On pairs whose schema component is dot-free, `pairKey` is injective. -/
theorem pairKey_inj {p q : String × String}
    (hp : dotFree p.1) (hq : dotFree q.1) (h : pairKey p = pairKey q) : p = q := by
  have hd : p.1.data ++ '.' :: p.2.data = q.1.data ++ '.' :: q.2.data := by
    have := congrArg String.data h
    simpa [pairKey] using this
  obtain ⟨h1, h2⟩ := append_sep_inj hp hq hd
  have e1 : p.1 = q.1 := String.ext h1
  have e2 : p.2 = q.2 := String.ext h2
  exact Prod.ext e1 e2

theorem mem_allPairs_dotFree {deps : List DepTuple} (h : wellFormed deps) :
    ∀ p ∈ allPairs deps, dotFree p.1 := by
  induction deps with
  | nil => intro p hp; simp [allPairs] at hp
  | cons d rest ih =>
    intro p hp
    have hd := h d (by simp)
    have hrest : wellFormed rest := fun e he => h e (by simp [he])
    simp only [allPairs, List.mem_cons] at hp
    rcases hp with rfl | hp
    · exact hd.2.2.2
    rcases hp with rfl | hp
    · exact hd.2.2.1
    · exact ih hrest p hp

/-- Under well-formedness the candidate keys are exactly the pair keys. -/
theorem map_key_allCands {deps : List DepTuple} (h : wellFormed deps) :
    (allCands deps).map stmtKey = (allPairs deps).map pairKey := by
  induction deps with
  | nil => simp [allCands, allPairs]
  | cons d rest ih =>
    have hd := h d (by simp)
    have hrest : wellFormed rest := fun e he => h e (by simp [he])
    have ht : stmtKey (targetNodeStmt d) = pairKey (d.target_schema, d.target_obj) := by
      simp [stmtKey_targetNodeStmt, targetFullName, pairKey, hd.2.1]
    have hr : stmtKey (refNodeStmt d) = pairKey (d.ref_schema, d.ref_obj) := by
      simp [stmtKey_refNodeStmt, refFullName, pairKey]
    simp [allCands, allPairs, ht, hr, ih hrest]

/-- Under well-formedness the graph has one node statement per distinct
`(schema, name)` pair occurring across both columns of the rows. -/
theorem length_nodeStmts (deps : List DepTuple) (db : String) (hwf : wellFormed deps) :
    (nodeStmts (create_lineage_graph deps db)).length = (allPairs deps).toFinset.card := by
  have h0 := nodeStmts_create_lineage_graph deps db
  have hmap : (dedupFirstAux stmtKey [] (allCands deps)).map stmtKey
      = dedupFirstAux id [] ((allCands deps).map stmtKey) :=
    map_dedupFirstAux stmtKey (allCands deps) []
  rw [map_key_allCands hwf] at hmap
  have hinj : ∀ a ∈ ([] : List (String × String)) ++ allPairs deps,
      ∀ b ∈ ([] : List (String × String)) ++ allPairs deps, pairKey a = pairKey b → a = b := by
    intro a ha b hb hab
    simp only [List.nil_append] at ha hb
    exact pairKey_inj (mem_allPairs_dotFree hwf a ha) (mem_allPairs_dotFree hwf b hb) hab
  have hcomm := dedupFirstAux_map_inj pairKey (allPairs deps) [] hinj
  simp only [List.map_nil] at hcomm
  calc (nodeStmts (create_lineage_graph deps db)).length
      = ((dedupFirstAux stmtKey [] (allCands deps)).map stmtKey).length := by
        rw [h0]; simp
    _ = ((dedupFirstAux id [] (allPairs deps)).map pairKey).length := by
        rw [hmap, hcomm]
    _ = (dedupFirstAux id [] (allPairs deps)).length := by simp
    _ = (allPairs deps).toFinset.card := length_dedupFirstAux_id _

/-- The chars produced by the run-collapsing substitution are never in the
invalid class: an invalid run becomes `'_'` and valid chars pass through. -/
theorem collapseRuns_valid (l : List Char) :
    ∀ (b : Bool) (c : Char), c ∈ collapseRuns b l → invalidFilenameChar c = false := by
  induction l with
  | nil => intro b c hc; simp [collapseRuns] at hc
  | cons x xs ih =>
    intro b c hc
    by_cases hx : invalidFilenameChar x = true
    · cases b with
      | true =>
        have he : collapseRuns true (x :: xs) = collapseRuns true xs := by
          simp [collapseRuns, hx]
        rw [he] at hc
        exact ih true c hc
      | false =>
        have he : collapseRuns false (x :: xs) = '_' :: collapseRuns true xs := by
          simp [collapseRuns, hx]
        rw [he] at hc
        rcases List.mem_cons.mp hc with rfl | hc
        · decide
        · exact ih true c hc
    · have he : collapseRuns b (x :: xs) = x :: collapseRuns false xs := by
        simp [collapseRuns, hx]
      rw [he] at hc
      rcases List.mem_cons.mp hc with rfl | hc
      · simpa using hx
      · exact ih false c hc

/-! # Claims -/

/-- The sample row of the spec's concrete test:
`("dbo","OrdersView","VIEW","dbo","Orders","USER_TABLE")`. -/
def ordersDep : DepTuple := ⟨"dbo", "OrdersView", "VIEW", "dbo", "Orders", "USER_TABLE"⟩

/-- C1: for every well-formed dependency row sequence, `create_lineage_graph`
produces exactly one node statement per distinct `(schema, name)` pair
occurring across both the referencing and referenced columns, each node
statement being the first candidate occurrence of its key (so its style comes
from the first row in which the pair appears), and exactly one edge statement
per input row — no rows silently dropped. -/
theorem create_lineage_graph_node_edge_counts (deps : List DepTuple) (db : String)
    (hwf : wellFormed deps) :
    (nodeStmts (create_lineage_graph deps db)).length = (allPairs deps).toFinset.card ∧
    (edgeStmts (create_lineage_graph deps db)).length = deps.length ∧
    nodeStmts (create_lineage_graph deps db) = dedupFirstAux stmtKey [] (allCands deps) := by
  refine ⟨length_nodeStmts deps db hwf, ?_, nodeStmts_create_lineage_graph deps db⟩
  rw [edgeStmts_create_lineage_graph]; simp

/-- Witness for C1 at the spec's sample row. -/
theorem create_lineage_graph_node_edge_counts_witness :
    wellFormed [ordersDep] ∧
    ((nodeStmts (create_lineage_graph [ordersDep] "TestDB")).length
        = (allPairs [ordersDep]).toFinset.card ∧
      (edgeStmts (create_lineage_graph [ordersDep] "TestDB")).length = [ordersDep].length ∧
      nodeStmts (create_lineage_graph [ordersDep] "TestDB")
        = dedupFirstAux stmtKey [] (allCands [ordersDep])) :=
  ⟨by decide, create_lineage_graph_node_edge_counts [ordersDep] "TestDB" (by decide)⟩

/-- C2: every edge is directed from the depended-upon (referenced) object to
the dependent (referencing) object, and on the single input row
`("dbo","OrdersView","VIEW","dbo","Orders","USER_TABLE")` the graph has
exactly the nodes `dbo.Orders`, `dbo.OrdersView` and exactly one edge
`dbo.Orders -> dbo.OrdersView`. -/
theorem create_lineage_graph_edge_direction :
    (∀ (deps : List DepTuple) (db : String),
      edgeStmts (create_lineage_graph deps db) =
        deps.map (fun d => Stmt.edge (targetFullName d) (refFullName d))) ∧
    nodeKeys (create_lineage_graph [ordersDep] "TestDB") = ["dbo.Orders", "dbo.OrdersView"] ∧
    edgeStmts (create_lineage_graph [ordersDep] "TestDB") =
      [Stmt.edge "dbo.Orders" "dbo.OrdersView"] :=
  ⟨edgeStmts_create_lineage_graph, by decide, by decide⟩

/-- C3 (the code contradicts the claim, the spec and the repository's own
behave step): at the failing inputs — a connection failure, or a
dependency-query failure — `generate_lineage` swallows the exception in its
`except (ConnectionError, RuntimeError, pyodbc.Error)` handler and returns
the status triple `(False, False, None)`; nothing propagates to the caller
(`raised = none`). -/
theorem generate_lineage_swallows_early_failures :
    (generate_lineage (ConnOutcome.failure "bad host") (FetchOutcome.ok [])
        SaveOutcome.ok RenderOutcome.ok false).raised = none ∧
    generate_lineage (ConnOutcome.failure "bad host") (FetchOutcome.ok [])
        SaveOutcome.ok RenderOutcome.ok false =
      ⟨false, false, none, none, false, false, false, false, false⟩ ∧
    (generate_lineage ConnOutcome.ok (FetchOutcome.failure "query rejected")
        SaveOutcome.ok RenderOutcome.ok false).raised = none ∧
    generate_lineage ConnOutcome.ok (FetchOutcome.failure "query rejected")
        SaveOutcome.ok RenderOutcome.ok false =
      ⟨false, false, none, none, true, true, false, false, false⟩ :=
  ⟨rfl, rfl, rfl, rfl⟩

/-- C4: when the renderer executable cannot be located and `skip_render` is
false, `generate_lineage` raises nothing, the description (`.gv`) file is
still present, and the returned render error is non-null with a message
containing "not found". -/
theorem generate_lineage_render_tool_missing (deps : List DepTuple) (e : String)
    (hne : deps ≠ []) :
    (generate_lineage ConnOutcome.ok (FetchOutcome.ok deps) SaveOutcome.ok
        (RenderOutcome.executableNotFound e) false).raised = none ∧
    (generate_lineage ConnOutcome.ok (FetchOutcome.ok deps) SaveOutcome.ok
        (RenderOutcome.executableNotFound e) false).gv_file_exists = true ∧
    (generate_lineage ConnOutcome.ok (FetchOutcome.ok deps) SaveOutcome.ok
        (RenderOutcome.executableNotFound e) false).render_error_message
      = some (execNotFoundErrorMsg e) ∧
    execNotFoundErrorMsg e =
      "Graphviz executable " ++
        ("not found" ++ (". Cannot render graph. Please install Graphviz. Error: " ++ e)) := by
  cases deps with
  | nil => exact absurd rfl hne
  | cons d rest => exact ⟨rfl, rfl, rfl, rfl⟩

/-- Witness for C4 at a one-row dependency list. -/
theorem generate_lineage_render_tool_missing_witness :
    ([ordersDep] ≠ ([] : List DepTuple)) ∧
    ((generate_lineage ConnOutcome.ok (FetchOutcome.ok [ordersDep]) SaveOutcome.ok
        (RenderOutcome.executableNotFound "failed to execute dot") false).raised = none ∧
      (generate_lineage ConnOutcome.ok (FetchOutcome.ok [ordersDep]) SaveOutcome.ok
        (RenderOutcome.executableNotFound "failed to execute dot") false).gv_file_exists = true ∧
      (generate_lineage ConnOutcome.ok (FetchOutcome.ok [ordersDep]) SaveOutcome.ok
        (RenderOutcome.executableNotFound "failed to execute dot") false).render_error_message
        = some (execNotFoundErrorMsg "failed to execute dot") ∧
      execNotFoundErrorMsg "failed to execute dot" =
        "Graphviz executable " ++
          ("not found" ++ (". Cannot render graph. Please install Graphviz. Error: " ++
            "failed to execute dot"))) :=
  ⟨by decide, generate_lineage_render_tool_missing [ordersDep] "failed to execute dot" (by decide)⟩

/-- C5: if the dependency fetch raises, no description file and no image file
are created and the target directory is not even created, while the opened
connection is still closed; more generally, on every path on which the
connection was opened (`conn = ok`) it is closed again before returning. -/
theorem generate_lineage_fetch_failure_cleanup :
    (∀ (m : String) (save : SaveOutcome) (render : RenderOutcome) (skip : Bool),
      (generate_lineage ConnOutcome.ok (FetchOutcome.failure m) save render skip).gv_file_exists
          = false ∧
      (generate_lineage ConnOutcome.ok (FetchOutcome.failure m) save render skip).png_file_exists
          = false ∧
      (generate_lineage ConnOutcome.ok (FetchOutcome.failure m) save render skip).outdir_created
          = false ∧
      (generate_lineage ConnOutcome.ok (FetchOutcome.failure m) save render skip).conn_closed
          = true) ∧
    (∀ (fetch : FetchOutcome) (save : SaveOutcome) (render : RenderOutcome) (skip : Bool),
      (generate_lineage ConnOutcome.ok fetch save render skip).conn_opened = true ∧
      (generate_lineage ConnOutcome.ok fetch save render skip).conn_closed = true) := by
  constructor
  · intro m save render skip
    exact ⟨rfl, rfl, rfl, rfl⟩
  · intro fetch save render skip
    cases fetch with
    | failure m => exact ⟨rfl, rfl⟩
    | ok deps =>
      cases deps with
      | nil => exact ⟨rfl, rfl⟩
      | cons d rest =>
        cases save with
        | ioError m => exact ⟨rfl, rfl⟩
        | ok =>
          cases skip with
          | true => exact ⟨rfl, rfl⟩
          | false => cases render <;> exact ⟨rfl, rfl⟩

/-- C6 counterexample: on the row `("b","R","VIEW","z","T","USER_TABLE")` the
description's node statements are keyed `z.T` then `b.R` — insertion order,
not sorted node-key order, refuting the claimed sorted ordering. -/
theorem dot_nodes_not_sorted_counterexample :
    nodeKeys (create_lineage_graph [⟨"b", "R", "VIEW", "z", "T", "USER_TABLE"⟩] "db")
      = ["z.T", "b.R"] ∧
    ¬ List.Pairwise (fun a b : String => keyLe a b = true)
        (nodeKeys (create_lineage_graph [⟨"b", "R", "VIEW", "z", "T", "USER_TABLE"⟩] "db")) :=
  ⟨by decide, by decide⟩

/-- C6 (amended): serializing the same constructed graph is deterministic
(the description text is a pure function of the graph, so emitting twice is
byte-identical), and the description's node statements appear in first-use
order — within each row the referenced node before the referencing node,
later duplicate keys suppressed — with edge statements in input order. -/
theorem dot_serialization_order (deps : List DepTuple) (db : String) :
    dotSource (create_lineage_graph deps db) = dotSource (create_lineage_graph deps db) ∧
    nodeStmts (create_lineage_graph deps db) = dedupFirstAux stmtKey [] (allCands deps) ∧
    edgeStmts (create_lineage_graph deps db) =
      deps.map (fun d => Stmt.edge (targetFullName d) (refFullName d)) :=
  ⟨rfl, nodeStmts_create_lineage_graph deps db, edgeStmts_create_lineage_graph deps db⟩

/-- C7 counterexample: a row whose *referencing* schema is absent gets the
key `.T` — the schema is used verbatim, no `?` placeholder — while an absent
*referenced* schema does get the placeholder (`?.T`), refuting "on either
side of the tuple". -/
theorem ref_schema_no_placeholder_counterexample :
    nodeKeys (create_lineage_graph [⟨"", "T", "VIEW", "dbo", "X", "USER_TABLE"⟩] "db")
      = ["dbo.X", ".T"] ∧
    (".T" : String) ≠ "?.T" ∧
    nodeKeys (create_lineage_graph [⟨"dbo", "V", "VIEW", "", "T", "USER_TABLE"⟩] "db")
      = ["?.T", "dbo.V"] :=
  ⟨by decide, by decide, by decide⟩

/-- C7 (amended): for every dependency row the edge endpoints are computed as
`schema ++ "." ++ name`, where the `?` placeholder is substituted for an
absent schema only on the depended-upon (referenced) side; the referencing
schema is used verbatim. -/
theorem node_key_placeholder_referenced_only (deps : List DepTuple) (db : String) :
    edgeStmts (create_lineage_graph deps db) =
      deps.map (fun d =>
        Stmt.edge
          ((if d.target_schema = "" then "?" else d.target_schema) ++ "." ++ d.target_obj)
          (d.ref_schema ++ "." ++ d.ref_obj)) := by
  rw [edgeStmts_create_lineage_graph]
  simp only [targetFullName, refFullName]

/-- C8: `export_schema` returns `False` when opening the connection fails or
an unexpected error escapes a category export (aborting the remaining
categories), and returns `True` when the connection succeeds and no category
raised an unhandled exception — a caught catalog-query failure inside one
category yields zero files for that category without aborting the others or
forcing a `False` return.  An opened connection is always closed. -/
theorem export_schema_status (c : ConnOutcome) (s v t : CatFetchOutcome) :
    ((∃ m, c = ConnOutcome.failure m) → (export_schema c s v t).success = false) ∧
    (c = ConnOutcome.ok → isUnexpected s = false → isUnexpected v = false →
      isUnexpected t = false →
      export_schema c s v t = ⟨true, true, catFiles s, catFiles v, catFiles t⟩) ∧
    (∀ m, catFiles (CatFetchOutcome.queryError m) = 0) ∧
    (c = ConnOutcome.ok →
      (isUnexpected s || isUnexpected v || isUnexpected t) = true →
      (export_schema c s v t).success = false) ∧
    (c = ConnOutcome.ok → (export_schema c s v t).conn_closed = true) := by
  cases c with
  | failure m =>
    refine ⟨fun _ => rfl, fun h => absurd h (by simp), fun m => rfl, fun h => absurd h (by simp),
      fun h => absurd h (by simp)⟩
  | ok =>
    cases s <;> cases v <;> cases t <;>
      simp [export_schema, isUnexpected, catFiles]

/-- Witness for C8: a connection failure yields `False`; with the connection
up, a caught query error in the procedures category yields zero files there,
the other categories still run, and the call returns `True`. -/
theorem export_schema_status_witness :
    (export_schema (ConnOutcome.failure "bad host") (CatFetchOutcome.ok 1)
        (CatFetchOutcome.ok 1) (CatFetchOutcome.ok 1)).success = false ∧
    export_schema ConnOutcome.ok (CatFetchOutcome.queryError "rejected")
        (CatFetchOutcome.ok 2) (CatFetchOutcome.ok 3) =
      ⟨true, true, 0, 2, 3⟩ ∧
    (export_schema ConnOutcome.ok (CatFetchOutcome.ok 1) (CatFetchOutcome.unexpected "boom")
        (CatFetchOutcome.ok 1)).success = false :=
  ⟨(export_schema_status (ConnOutcome.failure "bad host") (CatFetchOutcome.ok 1)
      (CatFetchOutcome.ok 1) (CatFetchOutcome.ok 1)).1 ⟨"bad host", rfl⟩,
    (export_schema_status ConnOutcome.ok (CatFetchOutcome.queryError "rejected")
      (CatFetchOutcome.ok 2) (CatFetchOutcome.ok 3)).2.1 rfl rfl rfl rfl,
    (export_schema_status ConnOutcome.ok (CatFetchOutcome.ok 1)
      (CatFetchOutcome.unexpected "boom") (CatFetchOutcome.ok 1)).2.2.2.1 rfl (by decide)⟩

/-- C9 counterexample: the CLI's `sanitize_for_filename` and the per-character
sanitizer used for the lineage output file name disagree — on
`"My  Data.Base"` the CLI rule collapses the double space and keeps the dot,
the lineage rule keeps both underscores and replaces the dot — so the same
rule does not govern the lineage file names. -/
theorem lineage_sanitize_differs_counterexample :
    sanitize_for_filename "My  Data.Base" = "My_Data.Base" ∧
    lineageSanitize "My  Data.Base" = "My__Data_Base" ∧
    lineageSanitize "My  Data.Base" ≠ sanitize_for_filename "My  Data.Base" :=
  ⟨by decide, by decide, by decide⟩

/-- C9 (amended): `sanitize_for_filename` trims whitespace, collapses every
run of characters from `{\\ / * ? : " < > | whitespace}` to one underscore
and returns `"_"` for an empty result — in particular `"My Data/Base:1"`
maps to `"My_Data_Base_1"` and `""` to `"_"`, and its output is never empty
and never contains an invalid character; the lineage output file name
instead uses a per-character rule (each character that is not alphanumeric
or underscore becomes its own underscore, no trimming, no collapsing, empty
stays empty). -/
theorem sanitize_for_filename_behavior :
    sanitize_for_filename "My Data/Base:1" = "My_Data_Base_1" ∧
    sanitize_for_filename "" = "_" ∧
    (∀ name : String, sanitize_for_filename name ≠ "" ∧
      ∀ c ∈ (sanitize_for_filename name).data, invalidFilenameChar c = false) ∧
    lineageSanitize "My Data/Base:1" = "My_Data_Base_1" ∧
    lineageSanitize "My  Data.Base" = "My__Data_Base" ∧
    lineageSanitize "" = "" := by
  refine ⟨by decide, by decide, ?_, by decide, by decide, by decide⟩
  intro name
  by_cases h : String.mk (collapseRuns false (pyStrip name).data) = ""
  · constructor
    · simp [sanitize_for_filename, h]
    · intro c hc
      simp only [sanitize_for_filename, h, if_pos] at hc
      have : c = '_' := by
        simpa using hc
      subst this; decide
  · constructor
    · simp [sanitize_for_filename, h]
    · intro c hc
      simp only [sanitize_for_filename, h, if_neg] at hc
      exact collapseRuns_valid _ false c (by simpa using hc)

/-- C10: when the fetch succeeds with zero dependencies, `generate_lineage`
returns the triple `(True, False, None)` immediately: the output directory is
not created, no description or image file is written, the connection is
closed and nothing is raised. -/
theorem generate_lineage_empty_dependencies (save : SaveOutcome)
    (render : RenderOutcome) (skip : Bool) :
    generate_lineage ConnOutcome.ok (FetchOutcome.ok []) save render skip =
      ⟨true, false, none, none, true, true, false, false, false⟩ := rfl

end AwaliDbMapping

